import Mathlib

/-!
Verification development for the Nexus intraday trading engine
(breakout_engine.py, momentum_engine.py, redis_manager.py).

Shallow embedding conventions:
* Prices and monetary quantities are rationals; tick/candle volumes are
  integers (Python ints).
* Redis-stored daily counters are integers; each Lua script of
  redis_manager.py is one atomic function on an explicit `Store` record,
  reflecting the fact that a Redis Lua script executes as a single
  indivisible step.
* Python `round(x, 2)` (round-half-to-even at two decimals) is `round2`.
* The engines' async entry points are modelled as pure state-transition
  functions on a per-instrument `Stock` record; fallible paths (Python
  exceptions on missing fields) return `Option`.
-/

namespace Nexus

/-- Round-half-to-even on a rational, as Python's builtin `round` does on
exact values: ties between two integers go to the even one. -/
def rhe (x : ℚ) : ℤ :=
  if x - ⌊x⌋ = 1/2 then (if 2 ∣ ⌊x⌋ then ⌊x⌋ else ⌊x⌋ + 1) else round x

/-- Python `round(x, 2)`: round to two decimal places, ties to even. -/
def round2 (x : ℚ) : ℚ := (rhe (x * 100) : ℚ) / 100

/-! ## Admission store (redis_manager.py)

The store keys relevant to one (side, symbol) pair:
`nexus:trades:side:{day}:{side}` (`sideCount`),
`nexus:trades:symbol:{day}:{symbol}` (`symCount`) and the open-position
lock `nexus:pos:open:{symbol}` (`locked`). -/

structure Store where
  sideCount : ℤ
  symCount : ℤ
  locked : Bool
deriving DecidableEq, Repr

/-- Script `_LUA_RESERVE_SIDE`: if `cur >= limit` return 0 (store unchanged),
else `INCR` the side counter and return 1. -/
def reserveSide (limit : ℤ) (s : Store) : Bool × Store :=
  if s.sideCount ≥ limit then (false, s)
  else (true, { s with sideCount := s.sideCount + 1 })

/-- Script `_LUA_ROLLBACK_SIDE`: if `cur <= 0` then `SET key 0`, else `DECR`. -/
def rollbackSide (s : Store) : Store :=
  if s.sideCount ≤ 0 then { s with sideCount := 0 }
  else { s with sideCount := s.sideCount - 1 }

/-- Script `_LUA_RESERVE_SYMBOL`: deny with LOCKED if the open lock exists, deny
with MAX_TRADES if the daily symbol count is at the cap, else `INCR` the
count and `SET ... NX EX` the lock (the inner lock-failure compensation
branch of the script is kept, although unreachable after the `EXISTS`
check inside the same atomic script). -/
def reserveSymbol (max_trades : ℤ) (s : Store) : (Bool × String) × Store :=
  if s.locked then ((false, "LOCKED"), s)
  else if s.symCount ≥ max_trades then ((false, "MAX_TRADES"), s)
  else
    let s1 : Store := { s with symCount := s.symCount + 1 }
    if s1.locked then ((false, "LOCKED"), { s1 with symCount := s1.symCount - 1 })
    else ((true, "OK"), { s1 with locked := true })

/-- Script `_LUA_ROLLBACK_SYMBOL`: `DEL` the lock; then if `cur <= 0` set the
daily count to 0, else `DECR` it. -/
def rollbackSymbol (s : Store) : Store :=
  let s0 : Store := { s with locked := false }
  if s0.symCount ≤ 0 then { s0 with symCount := 0 }
  else { s0 with symCount := s0.symCount - 1 }

/-! ## Instrument data model (RAM_STATE stock records) -/

inductive Status where
  | WAITING
  | TRIGGER_WATCH
  | OPEN
  | MOM_TRIGGER_WATCH
  | MOM_OPEN
deriving DecidableEq, Repr

inductive Latch where
  | NONE
  | BULL
  | BEAR
  | MOM_BULL
  | MOM_BEAR
deriving DecidableEq, Repr

/-- One-minute OHLCV candle (`stock['candle']` dict). -/
structure Candle where
  bucket : ℤ
  open_ : ℚ
  high : ℚ
  low : ℚ
  close : ℚ
  volume : ℤ
deriving DecidableEq, Repr

/-- Live trade record; the `symbol` / `entry_time` / `order_id` metadata
fields of the Python dict carry no logic and are omitted. -/
structure Trade where
  qty : ℤ
  entry_price : ℚ
  sl_price : ℚ
  target_price : ℚ
  pnl : ℚ
deriving DecidableEq, Repr

/-- One row of the dashboard volume matrix (`volume_criteria` entry). -/
structure Tier where
  min_sma_avg : ℚ
  sma_multiplier : ℚ
  min_vol_price_cr : ℚ
deriving DecidableEq, Repr

/-- Per-instrument state (`state["stocks"][token]`). -/
structure Stock where
  status : Status
  side_latch : Latch
  trigger_px : ℚ
  candle : Option Candle
  last_vol : ℤ
  pdh : ℚ
  sma : ℚ
  active_trade : Option Trade
deriving DecidableEq, Repr

/-- Per-side dashboard configuration, with the ratio strings already
parsed (the `try/except` fallback parsing is outside the core). -/
structure Cfg where
  total_trades : ℤ
  risk_trade_1 : ℚ
  rr_mult : ℚ
  tsl_mult : ℚ
  volume_criteria : List Tier
deriving DecidableEq, Repr

/-! ## Candle aggregation (the shared tail of `BreakoutEngine.run` and
`MomentumEngine.run`, lines forming the 1-minute candle) -/

/-- One tick through the candle-formation branch: bucket rollover closes
and returns the old candle and starts a fresh one; a first tick starts a
fresh candle; otherwise the running candle is updated in place with
`high = max`, `low = min`, `close = ltp` and a zero-floored cumulative
volume delta (only added when the previously stored cumulative volume was
positive). `last_vol` is recorded in every case. -/
def tickCandleStep (now : ℤ) (ltp : ℚ) (vol : ℤ) (stock : Stock) :
    Stock × Option Candle :=
  match stock.candle with
  | some c =>
    if c.bucket ≠ now then
      ({ stock with candle := some ⟨now, ltp, ltp, ltp, ltp, 0⟩, last_vol := vol },
       some c)
    else
      let c' : Candle :=
        { c with
          high := max c.high ltp
          low := min c.low ltp
          close := ltp
          volume := c.volume +
            (if stock.last_vol > 0 then max 0 (vol - stock.last_vol) else 0) }
      ({ stock with candle := some c', last_vol := vol }, none)
  | none =>
    ({ stock with candle := some ⟨now, ltp, ltp, ltp, ltp, 0⟩, last_vol := vol },
     none)

/-- Fold a list of `(minute bucket, price, cumulative volume)` ticks
through the candle-formation branch. -/
def runCandles (ticks : List (ℤ × ℚ × ℤ)) (stock : Stock) : Stock :=
  ticks.foldl (fun s t => (tickCandleStep t.1 t.2.1 t.2.2 s).1) stock

/-- Candle well-formedness: `high ≥ max(open, close)`,
`min(open, close) ≥ low`, and non-negative volume. -/
def wfCandle (c : Candle) : Prop :=
  c.low ≤ c.open_ ∧ c.low ≤ c.close ∧ c.open_ ≤ c.high ∧ c.close ≤ c.high ∧
    0 ≤ c.volume

instance (c : Candle) : Decidable (wfCandle c) := by
  unfold wfCandle; infer_instance

/-! ## Volume matrix (`check_vol_matrix` of both engines) -/

/-- Tier-selection loop: walk the matrix in list order, remembering the
last tier whose `min_sma_avg ≤ sma`, and stop at the first tier whose
threshold exceeds `sma` (the `break`). `acc` is the running
`tier_found`. -/
def findTier (sma : ℚ) : List Tier → Option Tier → Option Tier
  | [], acc => acc
  | t :: rest, acc =>
    if t.min_sma_avg ≤ sma then findTier sma rest (some t) else acc

/-- Function `check_vol_matrix`: auto-pass on an empty matrix; otherwise select a
tier via `findTier` and require candle volume at least `sma × multiplier`
and turnover-in-crores (`c_vol * close / 10^7`) at least the tier's
minimum; fail when no tier was selected. -/
def check_vol_matrix (matrix : List Tier) (sma : ℚ) (c_vol : ℤ) (close : ℚ) :
    Bool :=
  if matrix = [] then true
  else
    match findTier sma matrix none with
    | some t =>
      decide ((c_vol : ℚ) ≥ sma * t.sma_multiplier) &&
        decide ((c_vol : ℚ) * close / 10000000 ≥ t.min_vol_price_cr)
    | none => false

/-! ## Breakout signal evaluation (`BreakoutEngine.analyze_candle_logic`) -/

/-- The breakout gate of line 79: candle opened below the prior-day high
and closed above it. -/
def breakoutRule (pdh : ℚ) (c : Candle) : Bool :=
  decide (c.open_ < pdh) && decide (c.close > pdh)

/-- Function `analyze_candle_logic` for the bullish side: silent return when the
engine is off or no positive PDH exists; when the breakout gate holds and
the volume matrix qualifies, arm `TRIGGER_WATCH` with latch BULL and
trigger price `round(high * 1.0005, 2)`; otherwise (including the
explicit gap-up `elif`) leave the stock unchanged. -/
def analyze_candle_logic (bullLive : Bool) (matrix : List Tier)
    (stock : Stock) (c : Candle) : Stock :=
  if !bullLive then stock
  else if stock.pdh ≤ 0 then stock
  else if breakoutRule stock.pdh c then
    if check_vol_matrix matrix stock.sma c.volume c.close then
      { stock with
        status := Status.TRIGGER_WATCH
        side_latch := Latch.BULL
        trigger_px := round2 (c.high * 1.0005) }
    else stock
  else stock

/-! ## Trade opening -/

/-- Per-share risk in `BreakoutEngine.open_trade`: distance from entry to
the candle-low stop, replaced by `ltp * 0.002` when non-positive. -/
def breakoutRiskPerShare (ltp sl : ℚ) : ℚ :=
  let r := |ltp - sl|
  if r ≤ 0 then ltp * 0.002 else r

/-- Per-share risk in `MomentumEngine.open_trade`: floored at
`ltp * 0.005`. -/
def momRiskPerShare (ltp sl : ℚ) : ℚ :=
  max (|ltp - sl|) (ltp * 0.005)

/-- Function `BreakoutEngine.open_trade`: reserve a side slot via
`TradeControl.can_trade` (= `reserve_side_trade`); on denial fall back to
WAITING; size the position from the dashboard risk amount; reject
non-positive quantities; otherwise append the trade and go OPEN. `none`
models the Python crash on a missing candle dict. -/
def breakoutOpenTrade (cfg : Cfg) (store : Store) (stock : Stock)
    (ltp : ℚ) : Option (Store × Stock × Option Trade) :=
  let res := reserveSide cfg.total_trades store
  if !res.1 then some (res.2, { stock with status := Status.WAITING }, none)
  else
    match stock.candle with
    | none => none
    | some c =>
      let sl := c.low
      let rps := breakoutRiskPerShare ltp sl
      let qty : ℤ := ⌊cfg.risk_trade_1 / rps⌋
      if qty ≤ 0 then
        some (res.2, { stock with status := Status.WAITING }, none)
      else
        let trade : Trade :=
          { qty := qty
            entry_price := ltp
            sl_price := sl
            target_price := round2 (ltp + rps * cfg.rr_mult)
            pnl := 0 }
        some (res.2,
          { stock with status := Status.OPEN, active_trade := some trade },
          some trade)

/-- Function `MomentumEngine.open_trade`: missing broker session returns with no
state change; reserve a side slot (denial → WAITING); size with the
0.5%-floored risk; reject non-positive quantities; place the real order —
`orderOk = false` models `kite.place_order` raising, whose `except`
branch only sets WAITING (no rollback of the reservation); on success
append the trade and go MOM_OPEN. -/
def momOpenTrade (cfg : Cfg) (hasKite orderOk isBull : Bool) (store : Store)
    (stock : Stock) (ltp : ℚ) : Option (Store × Stock × Option Trade) :=
  if !hasKite then some (store, stock, none)
  else
    let res := reserveSide cfg.total_trades store
    if !res.1 then some (res.2, { stock with status := Status.WAITING }, none)
    else
      match stock.candle with
      | none => none
      | some c =>
        let sl := if isBull then c.low else c.high
        let rps := momRiskPerShare ltp sl
        let qty : ℤ := ⌊cfg.risk_trade_1 / rps⌋
        if qty ≤ 0 then
          some (res.2, { stock with status := Status.WAITING }, none)
        else if !orderOk then
          some (res.2, { stock with status := Status.WAITING }, none)
        else
          let trade : Trade :=
            { qty := qty
              entry_price := ltp
              sl_price := sl
              target_price :=
                round2 (if isBull then ltp + rps * cfg.rr_mult
                        else ltp - rps * cfg.rr_mult)
              pnl := 0 }
          some (res.2,
            { stock with status := Status.MOM_OPEN,
                         active_trade := some trade },
            some trade)

/-! ## Position monitoring and trailing stop -/

/-- Function `BreakoutEngine.calculate_tsl`: risk measured from entry to the
current stop; when profit exceeds `risk * tsl`, propose
`round(ltp - risk * 0.8, 2)`, else keep the current stop. -/
def calculate_tsl (t : Trade) (ltp tsl : ℚ) : ℚ :=
  let risk := t.entry_price - t.sl_price
  let profit := ltp - t.entry_price
  if profit > risk * tsl then round2 (ltp - risk * 0.8) else t.sl_price

/-- Function `MomentumEngine.calculate_tsl`: absolute risk, directional profit,
and a 0.9-risk trail in the favorable direction. -/
def mom_calculate_tsl (t : Trade) (ltp tsl : ℚ) (isBull : Bool) : ℚ :=
  let risk := |t.entry_price - t.sl_price|
  let profit := if isBull then ltp - t.entry_price else t.entry_price - ltp
  if profit > risk * tsl then
    if isBull then round2 (ltp - risk * 0.9) else round2 (ltp + risk * 0.9)
  else t.sl_price

/-- Function `close_position`: back to WAITING with no active trade. -/
def closePosition (stock : Stock) : Stock :=
  { stock with status := Status.WAITING, active_trade := none }

/-- Function `BreakoutEngine.monitor_active_trade`: update P&L, then in order
check target, stop, trailing-stop recompute (adopted only when strictly
greater than the current stop), and finally the pending manual-exit
flag. -/
def breakoutMonitor (cfg : Cfg) (manualExit : Bool) (stock : Stock)
    (ltp : ℚ) : Stock :=
  match stock.active_trade with
  | none => stock
  | some t =>
    let t1 : Trade := { t with pnl := round2 ((ltp - t.entry_price) * t.qty) }
    let afterExits : Stock :=
      if ltp ≥ t1.target_price then closePosition stock
      else if ltp ≤ t1.sl_price then closePosition stock
      else
        let new_sl := calculate_tsl t1 ltp cfg.tsl_mult
        let t2 : Trade :=
          if new_sl > t1.sl_price then { t1 with sl_price := new_sl } else t1
        { stock with active_trade := some t2 }
    if manualExit then closePosition afterExits else afterExits

/-- Function `MomentumEngine.monitor_active_trade`: directional P&L and exit
tests, trailing stop adopted only when it tightens in the favorable
direction, then the manual-exit flag. -/
def momMonitor (cfg : Cfg) (manualExit isBull : Bool) (stock : Stock)
    (ltp : ℚ) : Stock :=
  match stock.active_trade with
  | none => stock
  | some t =>
    let pnl :=
      if isBull then round2 ((ltp - t.entry_price) * t.qty)
      else round2 ((t.entry_price - ltp) * t.qty)
    let t1 : Trade := { t with pnl := pnl }
    let target_hit :=
      if isBull then ltp ≥ t1.target_price else ltp ≤ t1.target_price
    let sl_hit :=
      if isBull then ltp ≤ t1.sl_price else ltp ≥ t1.sl_price
    let afterExits : Stock :=
      if target_hit then closePosition stock
      else if sl_hit then closePosition stock
      else
        let new_sl := mom_calculate_tsl t1 ltp cfg.tsl_mult isBull
        let t2 : Trade :=
          if isBull then
            (if new_sl > t1.sl_price then { t1 with sl_price := new_sl } else t1)
          else
            (if new_sl < t1.sl_price then { t1 with sl_price := new_sl } else t1)
        { stock with active_trade := some t2 }
    if manualExit then closePosition afterExits else afterExits

/-! ## Tick entry points (`run` of both engines) -/

/-- Function `BreakoutEngine.run`: OPEN delegates to the monitor and returns;
TRIGGER_WATCH fires `open_trade` on a bullish trigger crossing and
returns; every other status goes through candle formation (which also
records `last_vol`). The third component is the closed candle handed to
`analyze_candle_logic` as a background task. -/
def breakoutRun (cfg : Cfg) (manualExit : Bool) (now : ℤ) (store : Store)
    (stock : Stock) (ltp : ℚ) (vol : ℤ) :
    Option (Store × Stock × Option Candle) :=
  if stock.status = Status.OPEN then
    some (store, breakoutMonitor cfg manualExit stock ltp, none)
  else if stock.status = Status.TRIGGER_WATCH then
    if stock.side_latch = Latch.BULL ∧ ltp ≥ stock.trigger_px then
      (breakoutOpenTrade cfg store stock ltp).map fun r => (r.1, r.2.1, none)
    else some (store, stock, none)
  else
    let r := tickCandleStep now ltp vol stock
    some (store, r.1, r.2)

/-- Function `MomentumEngine.run`: MOM_OPEN delegates to the monitor; in
MOM_TRIGGER_WATCH a bullish crossing of the trigger (or bearish breach)
fires `open_trade`; every other status goes through candle formation. -/
def momRun (cfg : Cfg) (manualExit hasKite orderOk : Bool) (now : ℤ)
    (store : Store) (stock : Stock) (ltp : ℚ) (vol : ℤ) :
    Option (Store × Stock × Option Candle) :=
  if stock.status = Status.MOM_OPEN then
    some (store,
      momMonitor cfg manualExit (stock.side_latch = Latch.MOM_BULL) stock ltp,
      none)
  else if stock.status = Status.MOM_TRIGGER_WATCH then
    if stock.side_latch = Latch.MOM_BULL ∧ ltp ≥ stock.trigger_px then
      (momOpenTrade cfg hasKite orderOk true store stock ltp).map
        fun r => (r.1, r.2.1, none)
    else if stock.side_latch = Latch.MOM_BEAR ∧ ltp ≤ stock.trigger_px then
      (momOpenTrade cfg hasKite orderOk false store stock ltp).map
        fun r => (r.1, r.2.1, none)
    else some (store, stock, none)
  else
    let r := tickCandleStep now ltp vol stock
    some (store, r.1, r.2)

/-! ## Spec-side definitions (for refinement claims) -/

/-- Last element of a list of tiers, written recursively. -/
def lastTier : List Tier → Option Tier
  | [] => none
  | [t] => some t
  | _ :: t :: rest => lastTier (t :: rest)

/-- Modelled from the spec words of the volume qualification: empty tier
list auto-passes; otherwise select the last tier of the longest initial
run whose `minAverageVolume ≤ S` (ascending scan stopping at the first
tier whose threshold exceeds `S`); with no selected tier fail; with a
selected tier pass iff `candleVolume ≥ S × volumeMultiplier` and turnover
(volume times close, expressed in the fixed monetary unit of
10^7 = one crore) is at least `minTurnoverValue`. -/
def check_vol_matrix_spec (matrix : List Tier) (sma : ℚ) (c_vol : ℤ)
    (close : ℚ) : Bool :=
  if matrix = [] then true
  else
    match lastTier (matrix.takeWhile fun t => decide (t.min_sma_avg ≤ sma)) with
    | some t =>
      decide ((c_vol : ℚ) ≥ sma * t.sma_multiplier) &&
        decide ((c_vol : ℚ) * close / 10000000 ≥ t.min_vol_price_cr)
    | none => false

/-- Modelled from the claim of a single atomic tri-check admission: check
side count below its cap AND symbol not locked AND symbol count below its
cap, and only then increment both counters and set the lock, all in one
step; otherwise change nothing. -/
def tryOpenSpec (maxPerSide maxPerSymbol : ℤ) (s : Store) : Bool × Store :=
  if s.sideCount < maxPerSide ∧ !s.locked ∧ s.symCount < maxPerSymbol then
    (true, ⟨s.sideCount + 1, s.symCount + 1, true⟩)
  else (false, s)

/-! ## Fold helpers for tick sequences -/

/-- Feed a list of `(price, manual-exit flag)` ticks through the breakout
position monitor. -/
def foldBreakoutMonitor (cfg : Cfg) (ticks : List (ℚ × Bool))
    (stock : Stock) : Stock :=
  ticks.foldl (fun s p => breakoutMonitor cfg p.2 s p.1) stock

/-- Feed a list of `(price, manual-exit flag)` ticks through the momentum
position monitor. -/
def foldMomMonitor (cfg : Cfg) (isBull : Bool) (ticks : List (ℚ × Bool))
    (stock : Stock) : Stock :=
  ticks.foldl (fun s p => momMonitor cfg p.2 isBull s p.1) stock

/-! ## Helper lemmas: tier selection -/

lemma lastTier_cons_isSome (a : Tier) (l : List Tier) :
    (lastTier (a :: l)).isSome := by
  induction l generalizing a with
  | nil => rfl
  | cons b l2 ih => exact ih b

lemma lastTier_cons (a : Tier) (l : List Tier) :
    lastTier (a :: l) = (lastTier l).or (some a) := by
  cases l with
  | nil => rfl
  | cons b l2 =>
    have h := lastTier_cons_isSome b l2
    obtain ⟨x, hx⟩ := Option.isSome_iff_exists.mp h
    show lastTier (b :: l2) = (lastTier (b :: l2)).or (some a)
    rw [hx]
    rfl

lemma findTier_eq (sma : ℚ) (m : List Tier) (acc : Option Tier) :
    findTier sma m acc =
      (lastTier (m.takeWhile fun t => decide (t.min_sma_avg ≤ sma))).or acc := by
  induction m generalizing acc with
  | nil => rfl
  | cons t rest ih =>
    by_cases h : t.min_sma_avg ≤ sma
    · rw [show findTier sma (t :: rest) acc = findTier sma rest (some t) from
        by simp [findTier, h]]
      rw [ih (some t)]
      rw [List.takeWhile_cons, if_pos (by simpa using h), lastTier_cons,
        Option.or_assoc]
      rfl
    · rw [show findTier sma (t :: rest) acc = acc from by simp [findTier, h]]
      rw [List.takeWhile_cons, if_neg (by simpa using h)]
      rfl

/-! ## Helper lemmas: candle aggregation -/

lemma tickCandleStep_last_vol (now : ℤ) (ltp : ℚ) (vol : ℤ) (stock : Stock) :
    ((tickCandleStep now ltp vol stock).1).last_vol = vol := by
  unfold tickCandleStep
  cases stock.candle with
  | none => rfl
  | some c =>
    by_cases h : c.bucket ≠ now
    · simp [h]
    · simp [h]

lemma tickCandleStep_wf (now : ℤ) (ltp : ℚ) (vol : ℤ) (stock : Stock)
    (c : Candle)
    (hwf : ∀ c0, stock.candle = some c0 → wfCandle c0)
    (h : ((tickCandleStep now ltp vol stock).1).candle = some c) :
    wfCandle c := by
  obtain ⟨sst, ssl, stp, scd, slv, spdh, ssma, sat⟩ := stock
  cases scd with
  | none =>
    simp only [tickCandleStep, Option.some.injEq] at h
    subst h
    refine ⟨le_refl _, le_refl _, le_refl _, le_refl _, le_refl _⟩
  | some c0 =>
    have h0 := hwf c0 rfl
    by_cases hb : c0.bucket ≠ now
    · simp only [tickCandleStep, if_pos hb, Option.some.injEq] at h
      subst h
      refine ⟨le_refl _, le_refl _, le_refl _, le_refl _, le_refl _⟩
    · simp only [tickCandleStep, if_neg hb, Option.some.injEq] at h
      subst h
      obtain ⟨h1, h2, h3, h4, h5⟩ := h0
      refine ⟨le_trans (min_le_left _ _) h1, min_le_right _ _,
        le_trans h3 (le_max_left _ _), le_max_right _ _, ?_⟩
      have hd : (0 : ℤ) ≤ (if slv > 0 then max 0 (vol - slv) else 0) := by
        split
        · exact le_max_left _ _
        · exact le_refl 0
      exact add_nonneg h5 hd

lemma runCandles_wf (ticks : List (ℤ × ℚ × ℤ)) (stock : Stock)
    (hwf : ∀ c0, stock.candle = some c0 → wfCandle c0) :
    ∀ c, (runCandles ticks stock).candle = some c → wfCandle c := by
  induction ticks generalizing stock with
  | nil => exact hwf
  | cons p ps ih =>
    intro c h
    exact ih ((tickCandleStep p.1 p.2.1 p.2.2 stock).1)
      (fun c0 hc0 => tickCandleStep_wf p.1 p.2.1 p.2.2 stock c0 hwf hc0) c h

/-! ## Helper lemmas: position monitors -/

lemma breakoutMonitor_sl (cfg : Cfg) (m : Bool) (stock : Stock) (ltp : ℚ)
    (t' : Trade)
    (h : (breakoutMonitor cfg m stock ltp).active_trade = some t') :
    ∃ t, stock.active_trade = some t ∧ t.sl_price ≤ t'.sl_price := by
  obtain ⟨sst, ssl, stp, scd, slv, spdh, ssma, sat⟩ := stock
  cases sat with
  | none => exact absurd h (by simp [breakoutMonitor])
  | some t =>
    refine ⟨t, rfl, ?_⟩
    by_cases hm : m = true
    · exact absurd h (by simp [breakoutMonitor, hm, closePosition])
    · simp only [breakoutMonitor, hm, if_false, Bool.not_eq_true] at h
      rw [if_neg (by simp [hm])] at h
      split_ifs at h with h1 h2 h3
      · exact absurd h (by simp [closePosition])
      · exact absurd h (by simp [closePosition])
      · simp only [Option.some.injEq] at h
        subst h
        exact le_of_lt h3
      · simp only [Option.some.injEq] at h
        subst h
        exact le_refl _

lemma breakoutMonitor_none (cfg : Cfg) (m : Bool) (stock : Stock) (ltp : ℚ)
    (h : stock.active_trade = none) :
    (breakoutMonitor cfg m stock ltp).active_trade = none := by
  obtain ⟨sst, ssl, stp, scd, slv, spdh, ssma, sat⟩ := stock
  cases sat with
  | none => simp [breakoutMonitor]
  | some t => exact absurd h (by simp)

lemma foldBreakoutMonitor_none (cfg : Cfg) (ticks : List (ℚ × Bool))
    (stock : Stock) (h : stock.active_trade = none) :
    (foldBreakoutMonitor cfg ticks stock).active_trade = none := by
  induction ticks generalizing stock with
  | nil => exact h
  | cons p ps ih =>
    exact ih (breakoutMonitor cfg p.2 stock p.1)
      (breakoutMonitor_none cfg p.2 stock p.1 h)

lemma foldBreakoutMonitor_sl (cfg : Cfg) (ticks : List (ℚ × Bool))
    (stock : Stock) (t t' : Trade)
    (h : stock.active_trade = some t)
    (h' : (foldBreakoutMonitor cfg ticks stock).active_trade = some t') :
    t.sl_price ≤ t'.sl_price := by
  induction ticks generalizing stock t with
  | nil =>
    rw [show foldBreakoutMonitor cfg [] stock = stock from rfl, h] at h'
    simp only [Option.some.injEq] at h'
    subst h'
    exact le_refl _
  | cons p ps ih =>
    have h2 : (foldBreakoutMonitor cfg ps
        (breakoutMonitor cfg p.2 stock p.1)).active_trade = some t' := h'
    cases hstep : (breakoutMonitor cfg p.2 stock p.1).active_trade with
    | none =>
      rw [foldBreakoutMonitor_none cfg ps _ hstep] at h2
      exact Option.noConfusion h2
    | some tm =>
      obtain ⟨t0, ht0, hle⟩ := breakoutMonitor_sl cfg p.2 stock p.1 tm hstep
      rw [h] at ht0
      simp only [Option.some.injEq] at ht0
      subst ht0
      exact le_trans hle (ih (breakoutMonitor cfg p.2 stock p.1) tm hstep h2)

lemma momMonitor_sl_bull (cfg : Cfg) (m : Bool) (stock : Stock) (ltp : ℚ)
    (t' : Trade)
    (h : (momMonitor cfg m true stock ltp).active_trade = some t') :
    ∃ t, stock.active_trade = some t ∧ t.sl_price ≤ t'.sl_price := by
  obtain ⟨sst, ssl, stp, scd, slv, spdh, ssma, sat⟩ := stock
  cases sat with
  | none => exact absurd h (by simp [momMonitor])
  | some t =>
    refine ⟨t, rfl, ?_⟩
    by_cases hm : m = true
    · exact absurd h (by simp [momMonitor, hm, closePosition])
    · simp only [momMonitor, if_true, eq_self_iff_true] at h
      rw [if_neg (by simp [hm])] at h
      split_ifs at h with h1 h2 h3
      · exact absurd h (by simp [closePosition])
      · exact absurd h (by simp [closePosition])
      · simp only [Option.some.injEq] at h
        subst h
        exact le_of_lt h3
      · simp only [Option.some.injEq] at h
        subst h
        exact le_refl _

lemma momMonitor_sl_bear (cfg : Cfg) (m : Bool) (stock : Stock) (ltp : ℚ)
    (t' : Trade)
    (h : (momMonitor cfg m false stock ltp).active_trade = some t') :
    ∃ t, stock.active_trade = some t ∧ t'.sl_price ≤ t.sl_price := by
  obtain ⟨sst, ssl, stp, scd, slv, spdh, ssma, sat⟩ := stock
  cases sat with
  | none => exact absurd h (by simp [momMonitor])
  | some t =>
    refine ⟨t, rfl, ?_⟩
    by_cases hm : m = true
    · exact absurd h (by simp [momMonitor, hm, closePosition])
    · simp only [momMonitor, Bool.false_eq_true, if_false] at h
      rw [if_neg (by simp [hm])] at h
      split_ifs at h with h1 h2 h3
      · exact absurd h (by simp [closePosition])
      · exact absurd h (by simp [closePosition])
      · simp only [Option.some.injEq] at h
        subst h
        exact le_of_lt h3
      · simp only [Option.some.injEq] at h
        subst h
        exact le_refl _

lemma momMonitor_none (cfg : Cfg) (m isBull : Bool) (stock : Stock) (ltp : ℚ)
    (h : stock.active_trade = none) :
    (momMonitor cfg m isBull stock ltp).active_trade = none := by
  obtain ⟨sst, ssl, stp, scd, slv, spdh, ssma, sat⟩ := stock
  cases sat with
  | none => simp [momMonitor]
  | some t => exact absurd h (by simp)

lemma foldMomMonitor_none (cfg : Cfg) (isBull : Bool)
    (ticks : List (ℚ × Bool)) (stock : Stock)
    (h : stock.active_trade = none) :
    (foldMomMonitor cfg isBull ticks stock).active_trade = none := by
  induction ticks generalizing stock with
  | nil => exact h
  | cons p ps ih =>
    exact ih (momMonitor cfg p.2 isBull stock p.1)
      (momMonitor_none cfg p.2 isBull stock p.1 h)

lemma foldMomMonitor_sl_bull (cfg : Cfg) (ticks : List (ℚ × Bool))
    (stock : Stock) (t t' : Trade)
    (h : stock.active_trade = some t)
    (h' : (foldMomMonitor cfg true ticks stock).active_trade = some t') :
    t.sl_price ≤ t'.sl_price := by
  induction ticks generalizing stock t with
  | nil =>
    rw [show foldMomMonitor cfg true [] stock = stock from rfl, h] at h'
    simp only [Option.some.injEq] at h'
    subst h'
    exact le_refl _
  | cons p ps ih =>
    have h2 : (foldMomMonitor cfg true ps
        (momMonitor cfg p.2 true stock p.1)).active_trade = some t' := h'
    cases hstep : (momMonitor cfg p.2 true stock p.1).active_trade with
    | none =>
      rw [foldMomMonitor_none cfg true ps _ hstep] at h2
      exact Option.noConfusion h2
    | some tm =>
      obtain ⟨t0, ht0, hle⟩ := momMonitor_sl_bull cfg p.2 stock p.1 tm hstep
      rw [h] at ht0
      simp only [Option.some.injEq] at ht0
      subst ht0
      exact le_trans hle (ih (momMonitor cfg p.2 true stock p.1) tm hstep h2)

lemma foldMomMonitor_sl_bear (cfg : Cfg) (ticks : List (ℚ × Bool))
    (stock : Stock) (t t' : Trade)
    (h : stock.active_trade = some t)
    (h' : (foldMomMonitor cfg false ticks stock).active_trade = some t') :
    t'.sl_price ≤ t.sl_price := by
  induction ticks generalizing stock t with
  | nil =>
    rw [show foldMomMonitor cfg false [] stock = stock from rfl, h] at h'
    simp only [Option.some.injEq] at h'
    subst h'
    exact le_refl _
  | cons p ps ih =>
    have h2 : (foldMomMonitor cfg false ps
        (momMonitor cfg p.2 false stock p.1)).active_trade = some t' := h'
    cases hstep : (momMonitor cfg p.2 false stock p.1).active_trade with
    | none =>
      rw [foldMomMonitor_none cfg false ps _ hstep] at h2
      exact Option.noConfusion h2
    | some tm =>
      obtain ⟨t0, ht0, hle⟩ := momMonitor_sl_bear cfg p.2 stock p.1 tm hstep
      rw [h] at ht0
      simp only [Option.some.injEq] at ht0
      subst ht0
      exact le_trans (ih (momMonitor cfg p.2 false stock p.1) tm hstep h2) hle

/-! ## Helper lemmas: fields untouched by monitoring and trade opening -/

lemma breakoutMonitor_last_vol (cfg : Cfg) (m : Bool) (stock : Stock)
    (ltp : ℚ) :
    (breakoutMonitor cfg m stock ltp).last_vol = stock.last_vol := by
  obtain ⟨sst, ssl, stp, scd, slv, spdh, ssma, sat⟩ := stock
  cases sat with
  | none => cases m <;> simp [breakoutMonitor]
  | some t =>
    simp only [breakoutMonitor]
    split_ifs <;> simp [closePosition]

lemma momMonitor_last_vol (cfg : Cfg) (m isBull : Bool) (stock : Stock)
    (ltp : ℚ) :
    (momMonitor cfg m isBull stock ltp).last_vol = stock.last_vol := by
  obtain ⟨sst, ssl, stp, scd, slv, spdh, ssma, sat⟩ := stock
  cases sat with
  | none => cases m <;> simp [momMonitor]
  | some t =>
    simp only [momMonitor]
    split_ifs <;> simp [closePosition]

lemma breakoutOpenTrade_last_vol (cfg : Cfg) (store : Store) (stock : Stock)
    (ltp : ℚ) (r : Store × Stock × Option Trade)
    (h : breakoutOpenTrade cfg store stock ltp = some r) :
    r.2.1.last_vol = stock.last_vol := by
  cases hc : stock.candle with
  | none =>
    simp only [breakoutOpenTrade, hc] at h
    split_ifs at h <;>
      first
        | exact Option.noConfusion h
        | (simp only [Option.some.injEq] at h; subst h; rfl)
  | some c =>
    simp only [breakoutOpenTrade, hc] at h
    split_ifs at h <;>
      (simp only [Option.some.injEq] at h; subst h; rfl)

lemma breakoutOpenTrade_store (cfg : Cfg) (store : Store) (stock : Stock)
    (ltp : ℚ) (r : Store × Stock × Option Trade)
    (h : breakoutOpenTrade cfg store stock ltp = some r) :
    r.1 = (reserveSide cfg.total_trades store).2 := by
  cases hc : stock.candle with
  | none =>
    simp only [breakoutOpenTrade, hc] at h
    split_ifs at h <;>
      first
        | exact Option.noConfusion h
        | (simp only [Option.some.injEq] at h; subst h; rfl)
  | some c =>
    simp only [breakoutOpenTrade, hc] at h
    split_ifs at h <;>
      (simp only [Option.some.injEq] at h; subst h; rfl)

lemma momOpenTrade_last_vol (cfg : Cfg) (hasKite orderOk isBull : Bool)
    (store : Store) (stock : Stock) (ltp : ℚ)
    (r : Store × Stock × Option Trade)
    (h : momOpenTrade cfg hasKite orderOk isBull store stock ltp = some r) :
    r.2.1.last_vol = stock.last_vol := by
  cases hc : stock.candle with
  | none =>
    simp only [momOpenTrade, hc] at h
    split_ifs at h <;>
      first
        | exact Option.noConfusion h
        | (simp only [Option.some.injEq] at h; subst h; rfl)
  | some c =>
    simp only [momOpenTrade, hc] at h
    split_ifs at h <;>
      (simp only [Option.some.injEq] at h; subst h; rfl)

lemma momOpenTrade_store (cfg : Cfg) (hasKite orderOk isBull : Bool)
    (store : Store) (stock : Stock) (ltp : ℚ)
    (r : Store × Stock × Option Trade)
    (h : momOpenTrade cfg hasKite orderOk isBull store stock ltp = some r)
    (hk : hasKite = true) :
    r.1 = (reserveSide cfg.total_trades store).2 := by
  subst hk
  cases hc : stock.candle with
  | none =>
    simp only [momOpenTrade, hc, Bool.not_true, Bool.false_eq_true,
      if_false] at h
    split_ifs at h <;>
      first
        | exact Option.noConfusion h
        | (simp only [Option.some.injEq] at h; subst h; rfl)
  | some c =>
    simp only [momOpenTrade, hc, Bool.not_true, Bool.false_eq_true,
      if_false] at h
    split_ifs at h <;>
      (simp only [Option.some.injEq] at h; subst h; rfl)

/-! ## Additional helper: candle update characterization -/

lemma tickCandleStep_update (now : ℤ) (ltp : ℚ) (vol : ℤ) (stock2 : Stock)
    (c0 : Candle) (hc0 : stock2.candle = some c0) (hb : c0.bucket = now) :
    (tickCandleStep now ltp vol stock2).1.candle =
      some { c0 with
        high := max c0.high ltp
        low := min c0.low ltp
        close := ltp
        volume := c0.volume +
          (if stock2.last_vol > 0 then max 0 (vol - stock2.last_vol) else 0) } := by
  obtain ⟨sst, ssl, stp, scd, slv, spdh, ssma, sat⟩ := stock2
  cases scd with
  | none => exact Option.noConfusion hc0
  | some cx =>
    simp only [Option.some.injEq] at hc0
    subst hc0
    simp [tickCandleStep, hb]

/-! ## Claim theorems -/

/-- C7: volume qualification with trailing average `S` and tier list `M`
passes unconditionally on an empty `M`; otherwise it selects the last
tier of the ascending scan whose `minAverageVolume ≤ S`, stopping at the
first tier whose threshold exceeds `S`; with no selected tier it fails,
and with a selected tier it passes iff
`candleVolume ≥ S × volumeMultiplier` and the turnover
`candleVolume × candleClose` (in the fixed monetary unit of one crore)
is at least `minTurnoverValue`. Stated as: the engines' scan-loop
implementation coincides with the spec-worded selection on every
input. -/
theorem C7_vol_matrix_matches_spec (matrix : List Tier) (sma : ℚ)
    (c_vol : ℤ) (close : ℚ) :
    check_vol_matrix matrix sma c_vol close =
      check_vol_matrix_spec matrix sma c_vol close := by
  by_cases hm : matrix = []
  · simp [check_vol_matrix, check_vol_matrix_spec, hm]
  · simp only [check_vol_matrix, check_vol_matrix_spec, hm, if_neg,
      if_false]
    rw [findTier_eq, Option.or_none]

/-- C6: every candle produced from a tick sequence by the tick handler
satisfies `high ≥ max(open, close)`, `min(open, close) ≥ low` and
`volume ≥ 0`; a tick whose cumulative volume dropped below the stored
cumulative volume contributes zero to the candle volume (which therefore
never decreases within a bucket). -/
theorem C6_candle_invariant (ticks : List (ℤ × ℚ × ℤ)) (stock stock2 : Stock)
    (c c0 c1 : Candle) (now : ℤ) (ltp : ℚ) (vol : ℤ)
    (h0 : stock.candle = none) :
    ((runCandles ticks stock).candle = some c →
      c.low ≤ c.open_ ∧ c.low ≤ c.close ∧ c.open_ ≤ c.high ∧
        c.close ≤ c.high ∧ 0 ≤ c.volume)
    ∧ (stock2.candle = some c0 → c0.bucket = now → vol < stock2.last_vol →
      ((tickCandleStep now ltp vol stock2).1.candle).map Candle.volume =
        some c0.volume)
    ∧ (stock2.candle = some c0 → c0.bucket = now →
      (tickCandleStep now ltp vol stock2).1.candle = some c1 →
        c0.volume ≤ c1.volume) := by
  refine ⟨?_, ?_, ?_⟩
  · intro h
    exact runCandles_wf ticks stock
      (fun cx hcx => absurd hcx (by simp [h0])) c h
  · intro hc0 hb hv
    rw [tickCandleStep_update now ltp vol stock2 c0 hc0 hb]
    have hz : (if stock2.last_vol > 0
        then max 0 (vol - stock2.last_vol) else 0) = 0 := by
      split
      · exact max_eq_left (by omega)
      · rfl
    simp [hz]
  · intro hc0 hb h1
    rw [tickCandleStep_update now ltp vol stock2 c0 hc0 hb] at h1
    simp only [Option.some.injEq] at h1
    subst h1
    have hz : (0 : ℤ) ≤ (if stock2.last_vol > 0
        then max 0 (vol - stock2.last_vol) else 0) := by
      split
      · exact le_max_left _ _
      · exact le_refl 0
    exact le_add_of_nonneg_right hz

/-- Witness for C6 at a concrete three-tick sequence (the middle tick has
a decreasing cumulative volume) and a concrete same-bucket update with a
decreasing cumulative volume. -/
theorem C6_witness :
    (⟨Status.WAITING, Latch.NONE, 0, none, 0, 0, 0, none⟩ : Stock).candle
        = none
    ∧ (((runCandles [(0, 100, 10), (0, 105, 5), (0, 99, 20)]
          ⟨Status.WAITING, Latch.NONE, 0, none, 0, 0, 0, none⟩).candle =
        some ⟨0, 100, 105, 99, 99, 15⟩ →
        (⟨0, 100, 105, 99, 99, 15⟩ : Candle).low ≤
            (⟨0, 100, 105, 99, 99, 15⟩ : Candle).open_ ∧
          (⟨0, 100, 105, 99, 99, 15⟩ : Candle).low ≤
            (⟨0, 100, 105, 99, 99, 15⟩ : Candle).close ∧
          (⟨0, 100, 105, 99, 99, 15⟩ : Candle).open_ ≤
            (⟨0, 100, 105, 99, 99, 15⟩ : Candle).high ∧
          (⟨0, 100, 105, 99, 99, 15⟩ : Candle).close ≤
            (⟨0, 100, 105, 99, 99, 15⟩ : Candle).high ∧
          0 ≤ (⟨0, 100, 105, 99, 99, 15⟩ : Candle).volume)
      ∧ ((⟨Status.WAITING, Latch.NONE, 0, some ⟨0, 100, 106, 99.5, 105, 7⟩,
            10, 0, 0, none⟩ : Stock).candle = some ⟨0, 100, 106, 99.5, 105, 7⟩ →
          (⟨0, 100, 106, 99.5, 105, 7⟩ : Candle).bucket = 0 →
          (4 : ℤ) < (⟨Status.WAITING, Latch.NONE, 0,
            some ⟨0, 100, 106, 99.5, 105, 7⟩, 10, 0, 0, none⟩ : Stock).last_vol →
          ((tickCandleStep 0 101 4
            ⟨Status.WAITING, Latch.NONE, 0, some ⟨0, 100, 106, 99.5, 105, 7⟩,
              10, 0, 0, none⟩).1.candle).map Candle.volume =
            some (⟨0, 100, 106, 99.5, 105, 7⟩ : Candle).volume)
      ∧ ((⟨Status.WAITING, Latch.NONE, 0, some ⟨0, 100, 106, 99.5, 105, 7⟩,
            10, 0, 0, none⟩ : Stock).candle = some ⟨0, 100, 106, 99.5, 105, 7⟩ →
          (⟨0, 100, 106, 99.5, 105, 7⟩ : Candle).bucket = 0 →
          (tickCandleStep 0 101 4
            ⟨Status.WAITING, Latch.NONE, 0, some ⟨0, 100, 106, 99.5, 105, 7⟩,
              10, 0, 0, none⟩).1.candle = some ⟨0, 100, 106, 99.5, 101, 7⟩ →
            (⟨0, 100, 106, 99.5, 105, 7⟩ : Candle).volume ≤
              (⟨0, 100, 106, 99.5, 101, 7⟩ : Candle).volume)) :=
  ⟨rfl, C6_candle_invariant [(0, 100, 10), (0, 105, 5), (0, 99, 20)]
    ⟨Status.WAITING, Latch.NONE, 0, none, 0, 0, 0, none⟩
    ⟨Status.WAITING, Latch.NONE, 0, some ⟨0, 100, 106, 99.5, 105, 7⟩,
      10, 0, 0, none⟩
    ⟨0, 100, 105, 99, 99, 15⟩ ⟨0, 100, 106, 99.5, 105, 7⟩
    ⟨0, 100, 106, 99.5, 101, 7⟩ 0 101 4 rfl⟩

/-- C4: while the bullish side is live and a positive prior-day high
exists, the breakout gate holds iff the candle opened below the PDH and
closed above it; when the gate fails (in particular for a gap-open whose
open is not below the PDH) the evaluator leaves the instrument state
unchanged, and any state change implies the gate held. -/
theorem C4_breakout_gate (matrix : List Tier) (stock : Stock) (c : Candle)
    (hpdh : 0 < stock.pdh) :
    (breakoutRule stock.pdh c = true ↔
      (c.open_ < stock.pdh ∧ stock.pdh < c.close))
    ∧ (breakoutRule stock.pdh c = false →
        analyze_candle_logic true matrix stock c = stock)
    ∧ (analyze_candle_logic true matrix stock c ≠ stock →
        c.open_ < stock.pdh ∧ stock.pdh < c.close) := by
  have hiff : breakoutRule stock.pdh c = true ↔
      (c.open_ < stock.pdh ∧ stock.pdh < c.close) := by
    simp [breakoutRule]
  have hskip : breakoutRule stock.pdh c = false →
      analyze_candle_logic true matrix stock c = stock := by
    intro hrule
    simp [analyze_candle_logic, hrule, not_le.mpr hpdh]
  refine ⟨hiff, hskip, ?_⟩
  intro hne
  cases hbr : breakoutRule stock.pdh c with
  | true => exact hiff.mp hbr
  | false => exact absurd (hskip hbr) hne

/-- Witness for C4 at a gap-open candle (open 103 above the PDH 102 while
close 105 is above it): the gate fails and no transition occurs. -/
theorem C4_witness :
    (0 : ℚ) < (⟨Status.WAITING, Latch.NONE, 0, none, 0, 102, 0, none⟩ :
      Stock).pdh
    ∧ ((breakoutRule
          (⟨Status.WAITING, Latch.NONE, 0, none, 0, 102, 0, none⟩ :
            Stock).pdh ⟨0, 103, 106, 102.5, 105, 50⟩ = true ↔
          ((⟨0, 103, 106, 102.5, 105, 50⟩ : Candle).open_ <
              (⟨Status.WAITING, Latch.NONE, 0, none, 0, 102, 0, none⟩ :
                Stock).pdh ∧
            (⟨Status.WAITING, Latch.NONE, 0, none, 0, 102, 0, none⟩ :
                Stock).pdh <
              (⟨0, 103, 106, 102.5, 105, 50⟩ : Candle).close))
      ∧ (breakoutRule
          (⟨Status.WAITING, Latch.NONE, 0, none, 0, 102, 0, none⟩ :
            Stock).pdh ⟨0, 103, 106, 102.5, 105, 50⟩ = false →
          analyze_candle_logic true []
            ⟨Status.WAITING, Latch.NONE, 0, none, 0, 102, 0, none⟩
            ⟨0, 103, 106, 102.5, 105, 50⟩ =
          ⟨Status.WAITING, Latch.NONE, 0, none, 0, 102, 0, none⟩)
      ∧ (analyze_candle_logic true []
            ⟨Status.WAITING, Latch.NONE, 0, none, 0, 102, 0, none⟩
            ⟨0, 103, 106, 102.5, 105, 50⟩ ≠
          ⟨Status.WAITING, Latch.NONE, 0, none, 0, 102, 0, none⟩ →
          (⟨0, 103, 106, 102.5, 105, 50⟩ : Candle).open_ <
              (⟨Status.WAITING, Latch.NONE, 0, none, 0, 102, 0, none⟩ :
                Stock).pdh ∧
            (⟨Status.WAITING, Latch.NONE, 0, none, 0, 102, 0, none⟩ :
                Stock).pdh <
              (⟨0, 103, 106, 102.5, 105, 50⟩ : Candle).close)) :=
  ⟨by norm_num, C4_breakout_gate []
    ⟨Status.WAITING, Latch.NONE, 0, none, 0, 102, 0, none⟩
    ⟨0, 103, 106, 102.5, 105, 50⟩ (by norm_num)⟩

/-! ## Helper lemmas: evaluating Python rounding on concrete values -/

lemma round2_eq_of_lt_half (x : ℚ) (n : ℤ) (h1 : (n : ℚ) ≤ x * 100)
    (h2 : x * 100 < (n : ℚ) + 1/2) : round2 x = (n : ℚ) / 100 := by
  have hfl : ⌊x * 100⌋ = n := Int.floor_eq_iff.mpr ⟨h1, by linarith⟩
  have htie : ¬(x * 100 - (⌊x * 100⌋ : ℚ) = 1/2) := by
    rw [hfl]; intro hc; linarith
  have hr : round (x * 100) = n := by
    rw [round_eq]
    exact Int.floor_eq_iff.mpr ⟨by linarith, by linarith⟩
  unfold round2 rhe
  rw [if_neg htie, hr]

lemma round2_fix (x : ℚ) (n : ℤ) (h : x * 100 = (n : ℚ)) : round2 x = x := by
  have hfl : ⌊x * 100⌋ = n := by rw [h]; exact Int.floor_intCast n
  have htie : ¬(x * 100 - (⌊x * 100⌋ : ℚ) = 1/2) := by
    rw [hfl, h]; intro hc; norm_num at hc
  have hr : round (x * 100) = n := by rw [h]; exact round_intCast n
  unfold round2 rhe
  rw [if_neg htie, hr]
  linarith

/-- C5 counterexample: for the scenario candle
`open=100, high=106, low=99.5, close=105` with prior-day high 102 and a
passing (empty) volume matrix, the engine arms the trigger at
`round(106 * 1.0005, 2) = 106.05`, which differs both from the claimed
value `106.01` and from the exact rounding of `106 * 1.0001`. -/
theorem C5_counterexample :
    (analyze_candle_logic true []
        ⟨Status.WAITING, Latch.NONE, 0, none, 0, 102, 0, none⟩
        ⟨0, 100, 106, 99.5, 105, 1000⟩).trigger_px = 106.05
    ∧ (106.05 : ℚ) ≠ round2 (106 * 1.0001)
    ∧ (106.05 : ℚ) ≠ 106.01 := by
  have h5 := round2_eq_of_lt_half (106 * 1.0005) 10605 (by norm_num)
    (by norm_num)
  have h1 := round2_eq_of_lt_half (106 * 1.0001) 10601 (by norm_num)
    (by norm_num)
  refine ⟨?_, by rw [h1]; norm_num, by norm_num⟩
  norm_num at h5
  norm_num [analyze_candle_logic, breakoutRule, check_vol_matrix, h5]

/-- C5 amended: for the scenario candle with prior-day high 102 and a
passing (empty) volume matrix, the engine transitions to TRIGGER_WATCH
with latch BULL and the trigger armed at
`round(candleHigh * 1.0005, 2) = round(106 * 1.0005, 2) = 106.05`. -/
theorem C5_amended :
    (analyze_candle_logic true []
        ⟨Status.WAITING, Latch.NONE, 0, none, 0, 102, 0, none⟩
        ⟨0, 100, 106, 99.5, 105, 1000⟩).status = Status.TRIGGER_WATCH
    ∧ (analyze_candle_logic true []
        ⟨Status.WAITING, Latch.NONE, 0, none, 0, 102, 0, none⟩
        ⟨0, 100, 106, 99.5, 105, 1000⟩).side_latch = Latch.BULL
    ∧ (analyze_candle_logic true []
        ⟨Status.WAITING, Latch.NONE, 0, none, 0, 102, 0, none⟩
        ⟨0, 100, 106, 99.5, 105, 1000⟩).trigger_px = round2 (106 * 1.0005)
    ∧ round2 (106 * 1.0005) = 106.05 := by
  have h5 := round2_eq_of_lt_half (106 * 1.0005) 10605 (by norm_num)
    (by norm_num)
  refine ⟨?_, ?_, ?_, by rw [h5]; norm_num⟩ <;>
    norm_num [analyze_candle_logic, breakoutRule, check_vol_matrix]

/-! ## Helper lemmas: admission primitives -/

lemma reserveSide_granted (limit : ℤ) (s : Store)
    (hg : (reserveSide limit s).1 = true) :
    (reserveSide limit s).2 = { s with sideCount := s.sideCount + 1 }
    ∧ s.sideCount < limit := by
  unfold reserveSide at hg ⊢
  split_ifs at hg ⊢ with h
  exact ⟨rfl, by omega⟩

lemma reserveSide_denied (limit : ℤ) (s : Store)
    (hg : (reserveSide limit s).1 = false) :
    (reserveSide limit s).2 = s := by
  unfold reserveSide at hg ⊢
  split_ifs at hg ⊢ with h
  rfl

lemma reserveSymbol_granted (maxSym : ℤ) (s : Store)
    (hg : (reserveSymbol maxSym s).1.1 = true) :
    (reserveSymbol maxSym s).2 = ⟨s.sideCount, s.symCount + 1, true⟩
    ∧ s.locked = false ∧ s.symCount < maxSym := by
  obtain ⟨sc, yc, lk⟩ := s
  cases lk with
  | true => exact absurd hg (by simp [reserveSymbol])
  | false =>
    by_cases h2 : yc ≥ maxSym
    · exact absurd hg (by simp [reserveSymbol, h2])
    · refine ⟨?_, rfl, by show yc < maxSym; omega⟩
      simp [reserveSymbol, h2]

lemma reserveSymbol_denied (maxSym : ℤ) (s : Store)
    (hg : (reserveSymbol maxSym s).1.1 = false) :
    (reserveSymbol maxSym s).2 = s := by
  obtain ⟨sc, yc, lk⟩ := s
  cases lk with
  | true => simp [reserveSymbol]
  | false =>
    by_cases h2 : yc ≥ maxSym
    · simp [reserveSymbol, h2]
    · exact absurd hg (by simp [reserveSymbol, h2])

lemma rollbackSide_nonneg (s : Store) : 0 ≤ (rollbackSide s).sideCount := by
  obtain ⟨sc, yc, lk⟩ := s
  unfold rollbackSide
  split_ifs with h <;> simp at h ⊢ <;> omega

lemma rollbackSymbol_nonneg (s : Store) :
    0 ≤ (rollbackSymbol s).symCount := by
  obtain ⟨sc, yc, lk⟩ := s
  simp only [rollbackSymbol]
  split_ifs with h <;> simp at h ⊢ <;> omega

lemma rollbackSide_eval (sc yc : ℤ) (lk : Bool) :
    rollbackSide ⟨sc, yc, lk⟩ = ⟨max (sc - 1) 0, yc, lk⟩ := by
  unfold rollbackSide
  split_ifs with h <;> simp at h ⊢ <;> omega

lemma rollbackSymbol_eval (sc yc : ℤ) (lk : Bool) :
    rollbackSymbol ⟨sc, yc, lk⟩ = ⟨sc, max (yc - 1) 0, false⟩ := by
  simp only [rollbackSymbol]
  split_ifs with h <;> simp at h ⊢ <;> omega

lemma rollbackSide_iter_nonneg (n : ℕ) (s : Store)
    (h : 0 ≤ s.sideCount) :
    0 ≤ (Nat.iterate rollbackSide n s).sideCount := by
  cases n with
  | zero => exact h
  | succ m =>
    rw [Function.iterate_succ_apply']
    exact rollbackSide_nonneg _

lemma rollbackSymbol_iter_nonneg (n : ℕ) (s : Store)
    (h : 0 ≤ s.symCount) :
    0 ≤ (Nat.iterate rollbackSymbol n s).symCount := by
  cases n with
  | zero => exact h
  | succ m =>
    rw [Function.iterate_succ_apply']
    exact rollbackSymbol_nonneg _

/-- C2 counterexample: with the symbol open-lock held (`locked = true`)
and both counters at zero, the engines' trade-open admission — which is
only the side reservation of `can_trade` — still grants and opens a
trade, incrementing the side counter while the lock was never examined
and the symbol counter never incremented; the claimed single atomic
tri-check admission denies the same request. -/
theorem C2_counterexample :
    ((breakoutOpenTrade ⟨5, 2000, 2, 1.5, []⟩ ⟨0, 0, true⟩
        ⟨Status.TRIGGER_WATCH, Latch.BULL, 106.05,
          some ⟨0, 100, 106, 99.5, 105, 1000⟩, 0, 102, 0, none⟩
        106.06).map fun r =>
        (r.1.sideCount, r.1.symCount, r.1.locked, r.2.1.status)) =
      some (1, 0, true, Status.OPEN)
    ∧ (tryOpenSpec 5 2 ⟨0, 0, true⟩).1 = false := by
  have hres : reserveSide 5 (⟨0, 0, true⟩ : Store) = (true, ⟨1, 0, true⟩) := by
    norm_num [reserveSide]
  have hrps : breakoutRiskPerShare 106.06 99.5 = 6.56 := by
    unfold breakoutRiskPerShare
    rw [abs_of_nonneg (by norm_num : (0 : ℚ) ≤ 106.06 - 99.5)]
    rw [if_neg (by norm_num)]
    norm_num
  have hqty : ⌊(2000 : ℚ) / breakoutRiskPerShare 106.06 99.5⌋ = 304 := by
    rw [hrps]
    exact Int.floor_eq_iff.mpr ⟨by norm_num, by norm_num⟩
  constructor
  · simp only [breakoutOpenTrade, hres]
    rw [hqty]
    norm_num
  · norm_num [tryOpenSpec]

/-- C2 amended: each store primitive is individually atomic and
all-or-nothing — `reserve_side_trade` increments the side counter exactly
when it was below the limit and otherwise changes nothing, and
`reserve_symbol_trade` increments the symbol counter and sets the lock
exactly when the lock was free and the symbol counter below its cap,
otherwise changing nothing — but the engines' trade-open path performs
only the side reservation, so its store effect is that of
`reserve_side_trade` alone. -/
theorem C2_admission_amended (limit maxSym : ℤ) (s : Store) (cfg : Cfg)
    (store : Store) (stock : Stock) (ltp : ℚ)
    (r : Store × Stock × Option Trade) :
    ((reserveSide limit s).1 = true →
      (reserveSide limit s).2 = { s with sideCount := s.sideCount + 1 }
      ∧ s.sideCount < limit)
    ∧ ((reserveSide limit s).1 = false → (reserveSide limit s).2 = s)
    ∧ ((reserveSymbol maxSym s).1.1 = true →
      (reserveSymbol maxSym s).2 = ⟨s.sideCount, s.symCount + 1, true⟩
      ∧ s.locked = false ∧ s.symCount < maxSym)
    ∧ ((reserveSymbol maxSym s).1.1 = false →
      (reserveSymbol maxSym s).2 = s)
    ∧ (breakoutOpenTrade cfg store stock ltp = some r →
      r.1 = (reserveSide cfg.total_trades store).2) :=
  ⟨reserveSide_granted limit s, reserveSide_denied limit s,
    reserveSymbol_granted maxSym s, reserveSymbol_denied maxSym s,
    breakoutOpenTrade_store cfg store stock ltp r⟩

/-- Witness for C2 amended at concrete stores. -/
theorem C2_amended_witness :
    ((reserveSide 5 ⟨2, 0, false⟩).1 = true →
      (reserveSide 5 ⟨2, 0, false⟩).2 =
        { (⟨2, 0, false⟩ : Store) with
            sideCount := (⟨2, 0, false⟩ : Store).sideCount + 1 }
      ∧ (⟨2, 0, false⟩ : Store).sideCount < 5)
    ∧ ((reserveSide 5 ⟨2, 0, false⟩).1 = false →
      (reserveSide 5 ⟨2, 0, false⟩).2 = ⟨2, 0, false⟩)
    ∧ ((reserveSymbol 2 ⟨2, 0, false⟩).1.1 = true →
      (reserveSymbol 2 ⟨2, 0, false⟩).2 =
        ⟨(⟨2, 0, false⟩ : Store).sideCount,
          (⟨2, 0, false⟩ : Store).symCount + 1, true⟩
      ∧ (⟨2, 0, false⟩ : Store).locked = false
      ∧ (⟨2, 0, false⟩ : Store).symCount < 2)
    ∧ ((reserveSymbol 2 ⟨2, 0, false⟩).1.1 = false →
      (reserveSymbol 2 ⟨2, 0, false⟩).2 = ⟨2, 0, false⟩)
    ∧ (breakoutOpenTrade ⟨5, 2000, 2, 1.5, []⟩ ⟨0, 0, false⟩
        ⟨Status.TRIGGER_WATCH, Latch.BULL, 106.05,
          some ⟨0, 100, 106, 99.5, 105, 1000⟩, 0, 102, 0, none⟩ 106.06 =
        some (⟨1, 0, false⟩,
          ⟨Status.OPEN, Latch.BULL, 106.05,
            some ⟨0, 100, 106, 99.5, 105, 1000⟩, 0, 102, 0,
            some ⟨304, 106.06, 99.5, 119.18, 0⟩⟩,
          some ⟨304, 106.06, 99.5, 119.18, 0⟩) →
      (⟨1, 0, false⟩ : Store) =
        (reserveSide (⟨5, 2000, 2, 1.5, []⟩ : Cfg).total_trades
          ⟨0, 0, false⟩).2) :=
  C2_admission_amended 5 2 ⟨2, 0, false⟩ ⟨5, 2000, 2, 1.5, []⟩
    ⟨0, 0, false⟩
    ⟨Status.TRIGGER_WATCH, Latch.BULL, 106.05,
      some ⟨0, 100, 106, 99.5, 105, 1000⟩, 0, 102, 0, none⟩ 106.06
    (⟨1, 0, false⟩,
      ⟨Status.OPEN, Latch.BULL, 106.05,
        some ⟨0, 100, 106, 99.5, 105, 1000⟩, 0, 102, 0,
        some ⟨304, 106.06, 99.5, 119.18, 0⟩⟩,
      some ⟨304, 106.06, 99.5, 119.18, 0⟩)

/-- C3 counterexample: starting from a side counter of 1 under limit 5,
one granted reservation followed by two rollbacks leaves the counter at
0, not at its pre-reservation value 1 — `rollback` is not idempotent. -/
theorem C3_counterexample :
    (reserveSide 5 ⟨1, 0, false⟩).1 = true
    ∧ (rollbackSide (rollbackSide
        (reserveSide 5 ⟨1, 0, false⟩).2)).sideCount = 0
    ∧ (0 : ℤ) ≠ 1 := by
  refine ⟨by norm_num [reserveSide], ?_, by norm_num⟩
  have h1 : (reserveSide 5 (⟨1, 0, false⟩ : Store)).2 = ⟨2, 0, false⟩ := by
    norm_num [reserveSide]
  rw [h1, rollbackSide_eval]
  norm_num [rollbackSide_eval]

/-- C3 amended: one rollback after a granted reservation restores the
pre-reservation counter exactly; a second rollback decrements again
whenever the counter is still positive, leaving `max(pre − 1, 0)` — the
pre-reservation value only when it was 0; and no sequence of rollback
calls ever drives a counter (side or symbol) below zero. -/
theorem C3_rollback_amended (limit : ℤ) (s s2 : Store) (n : ℕ)
    (h0 : 0 ≤ s.sideCount) (h1 : 0 ≤ s.symCount) :
    ((reserveSide limit s).1 = true →
      (rollbackSide (reserveSide limit s).2).sideCount = s.sideCount
      ∧ (rollbackSide (rollbackSide
          (reserveSide limit s).2)).sideCount = max (s.sideCount - 1) 0)
    ∧ ((reserveSymbol limit s).1.1 = true →
      (rollbackSymbol (reserveSymbol limit s).2).symCount = s.symCount
      ∧ (rollbackSymbol (reserveSymbol limit s).2).locked = false
      ∧ (rollbackSymbol (rollbackSymbol
          (reserveSymbol limit s).2)).symCount = max (s.symCount - 1) 0)
    ∧ 0 ≤ (rollbackSide s2).sideCount
    ∧ 0 ≤ (rollbackSymbol s2).symCount
    ∧ (0 ≤ s2.sideCount →
        0 ≤ (Nat.iterate rollbackSide n s2).sideCount)
    ∧ (0 ≤ s2.symCount →
        0 ≤ (Nat.iterate rollbackSymbol n s2).symCount) := by
  obtain ⟨sc, yc, lk⟩ := s
  have h0' : (0 : ℤ) ≤ sc := h0
  have h1' : (0 : ℤ) ≤ yc := h1
  refine ⟨?_, ?_, rollbackSide_nonneg s2, rollbackSymbol_nonneg s2,
    rollbackSide_iter_nonneg n s2, rollbackSymbol_iter_nonneg n s2⟩
  · intro hg
    obtain ⟨hst, hlt⟩ := reserveSide_granted limit ⟨sc, yc, lk⟩ hg
    rw [hst]
    rw [show ({ (⟨sc, yc, lk⟩ : Store) with
        sideCount := (⟨sc, yc, lk⟩ : Store).sideCount + 1 } : Store) =
        (⟨sc + 1, yc, lk⟩ : Store) from rfl]
    rw [rollbackSide_eval, rollbackSide_eval]
    constructor
    · show max (sc + 1 - 1) 0 = sc
      omega
    · show max (max (sc + 1 - 1) 0 - 1) 0 = max (sc - 1) 0
      omega
  · intro hg
    obtain ⟨hst, hlk, hlt⟩ := reserveSymbol_granted limit ⟨sc, yc, lk⟩ hg
    rw [hst]
    rw [show ((⟨(⟨sc, yc, lk⟩ : Store).sideCount,
        (⟨sc, yc, lk⟩ : Store).symCount + 1, true⟩ : Store)) =
        (⟨sc, yc + 1, true⟩ : Store) from rfl]
    rw [rollbackSymbol_eval, rollbackSymbol_eval]
    refine ⟨?_, rfl, ?_⟩
    · show max (yc + 1 - 1) 0 = yc
      omega
    · show max (max (yc + 1 - 1) 0 - 1) 0 = max (yc - 1) 0
      omega

/-- Witness for C3 amended at a concrete store with both counters at 2,
and a store with negative counters for the flooring clauses. -/
theorem C3_amended_witness :
    ((0 : ℤ) ≤ (⟨2, 2, false⟩ : Store).sideCount
      ∧ (0 : ℤ) ≤ (⟨2, 2, false⟩ : Store).symCount)
    ∧ (((reserveSide 5 ⟨2, 2, false⟩).1 = true →
      (rollbackSide (reserveSide 5 ⟨2, 2, false⟩).2).sideCount =
        (⟨2, 2, false⟩ : Store).sideCount
      ∧ (rollbackSide (rollbackSide
          (reserveSide 5 ⟨2, 2, false⟩).2)).sideCount =
          max ((⟨2, 2, false⟩ : Store).sideCount - 1) 0)
    ∧ ((reserveSymbol 5 ⟨2, 2, false⟩).1.1 = true →
      (rollbackSymbol (reserveSymbol 5 ⟨2, 2, false⟩).2).symCount =
        (⟨2, 2, false⟩ : Store).symCount
      ∧ (rollbackSymbol (reserveSymbol 5 ⟨2, 2, false⟩).2).locked = false
      ∧ (rollbackSymbol (rollbackSymbol
          (reserveSymbol 5 ⟨2, 2, false⟩).2)).symCount =
          max ((⟨2, 2, false⟩ : Store).symCount - 1) 0)
    ∧ 0 ≤ (rollbackSide ⟨-3, -2, true⟩).sideCount
    ∧ 0 ≤ (rollbackSymbol ⟨-3, -2, true⟩).symCount
    ∧ (0 ≤ (⟨-3, -2, true⟩ : Store).sideCount →
        0 ≤ (Nat.iterate rollbackSide 2 ⟨-3, -2, true⟩).sideCount)
    ∧ (0 ≤ (⟨-3, -2, true⟩ : Store).symCount →
        0 ≤ (Nat.iterate rollbackSymbol 2 ⟨-3, -2, true⟩).symCount)) :=
  ⟨⟨by norm_num, by norm_num⟩,
    C3_rollback_amended 5 ⟨2, 2, false⟩ ⟨-3, -2, true⟩ 2
      (by norm_num) (by norm_num)⟩

/-- C1: in `MomentumEngine.open_trade`, after a granted side reservation
(pre-reservation counter 0, incremented to 1) a failing order placement
returns the instrument to WAITING but never calls `rollback_side_trade`:
the side daily counter stays at 1 instead of returning to 0 — phantom
quota consumption, contradicting the spec and the redis manager's own
docstring that a failed order must be followed by the rollback. -/
theorem C1_no_rollback_on_order_failure :
    momOpenTrade ⟨5, 2000, 2, 1.5, []⟩ true false true ⟨0, 0, false⟩
        ⟨Status.MOM_TRIGGER_WATCH, Latch.MOM_BULL, 101,
          some ⟨0, 100, 101, 99, 100.5, 1000⟩, 0, 0, 0, none⟩ 100
      = some (⟨1, 0, false⟩,
          ⟨Status.WAITING, Latch.MOM_BULL, 101,
            some ⟨0, 100, 101, 99, 100.5, 1000⟩, 0, 0, 0, none⟩, none)
    ∧ (1 : ℤ) ≠ 0 := by
  have hres : reserveSide 5 (⟨0, 0, false⟩ : Store) =
      (true, ⟨1, 0, false⟩) := by
    norm_num [reserveSide]
  have hrps : momRiskPerShare 100 99 = 1 := by
    unfold momRiskPerShare
    rw [abs_of_nonneg (by norm_num : (0 : ℚ) ≤ 100 - 99)]
    rw [max_eq_left (by norm_num)]
    norm_num
  have hqty : ⌊(2000 : ℚ) / momRiskPerShare 100 99⌋ = 2000 := by
    rw [hrps, div_one]
    exact Int.floor_eq_iff.mpr ⟨by norm_num, by norm_num⟩
  constructor
  · simp only [momOpenTrade, hres, if_true]
    rw [hqty]
    norm_num
  · norm_num

/-- C9 counterexample: a tick processed for an instrument in OPEN status
(no active trade) returns early from the tick handler without recording
the tick's cumulative volume — the stored last cumulative volume stays at
5 although the tick carried 7. -/
theorem C9_counterexample :
    ((breakoutRun ⟨5, 2000, 2, 1.5, []⟩ false 0 ⟨0, 0, false⟩
        ⟨Status.OPEN, Latch.BULL, 0, none, 5, 0, 0, none⟩ 100 7).map
      fun r => r.2.1.last_vol) = some 5
    ∧ (5 : ℤ) ≠ 7 := ⟨rfl, by norm_num⟩

/-- C9 amended: after the tick handler processes a tick, the stored last
cumulative volume equals the tick's cumulative volume exactly when the
handler reached candle formation — that is, when the status is neither
OPEN nor TRIGGER_WATCH for the breakout engine (neither MOM_OPEN nor
MOM_TRIGGER_WATCH for the momentum engine); in those early-return
statuses the previously stored value is retained unchanged. -/
theorem C9_last_vol_amended (cfg : Cfg) (manualExit hasKite orderOk : Bool)
    (now : ℤ) (store : Store) (stock : Stock) (ltp : ℚ) (vol : ℤ)
    (res resM : Store × Stock × Option Candle)
    (hbr : breakoutRun cfg manualExit now store stock ltp vol = some res)
    (hmr : momRun cfg manualExit hasKite orderOk now store stock ltp vol =
      some resM) :
    res.2.1.last_vol =
      (if stock.status = Status.OPEN ∨ stock.status = Status.TRIGGER_WATCH
        then stock.last_vol else vol)
    ∧ resM.2.1.last_vol =
      (if stock.status = Status.MOM_OPEN ∨
          stock.status = Status.MOM_TRIGGER_WATCH
        then stock.last_vol else vol) := by
  constructor
  · unfold breakoutRun at hbr
    split_ifs at hbr with h1 h2 h3
    · simp only [Option.some.injEq] at hbr
      subst hbr
      rw [if_pos (Or.inl h1), breakoutMonitor_last_vol]
    · obtain ⟨r, hr, hf⟩ := Option.map_eq_some'.mp hbr
      subst hf
      rw [if_pos (Or.inr h2)]
      exact breakoutOpenTrade_last_vol cfg store stock ltp r hr
    · simp only [Option.some.injEq] at hbr
      subst hbr
      rw [if_pos (Or.inr h2)]
    · simp only [Option.some.injEq] at hbr
      subst hbr
      rw [if_neg (not_or.mpr ⟨h1, h2⟩)]
      exact tickCandleStep_last_vol now ltp vol stock
  · unfold momRun at hmr
    split_ifs at hmr with h1 h2 h3 h4
    · simp only [Option.some.injEq] at hmr
      subst hmr
      rw [if_pos (Or.inl h1), momMonitor_last_vol]
    · obtain ⟨r, hr, hf⟩ := Option.map_eq_some'.mp hmr
      subst hf
      rw [if_pos (Or.inr h2)]
      exact momOpenTrade_last_vol cfg hasKite orderOk true store stock ltp r hr
    · obtain ⟨r, hr, hf⟩ := Option.map_eq_some'.mp hmr
      subst hf
      rw [if_pos (Or.inr h2)]
      exact momOpenTrade_last_vol cfg hasKite orderOk false store stock ltp
        r hr
    · simp only [Option.some.injEq] at hmr
      subst hmr
      rw [if_pos (Or.inr h2)]
    · simp only [Option.some.injEq] at hmr
      subst hmr
      rw [if_neg (not_or.mpr ⟨h1, h2⟩)]
      exact tickCandleStep_last_vol now ltp vol stock

/-- Witness for C9 amended: a concrete WAITING instrument whose first
tick reaches candle formation in both engines, recording 7. -/
theorem C9_amended_witness :
    (breakoutRun ⟨5, 2000, 2, 1.5, []⟩ false 0 ⟨0, 0, false⟩
        ⟨Status.WAITING, Latch.NONE, 0, none, 0, 0, 0, none⟩ 100 7 =
      some (⟨0, 0, false⟩,
        ⟨Status.WAITING, Latch.NONE, 0, some ⟨0, 100, 100, 100, 100, 0⟩, 7,
          0, 0, none⟩, none)
    ∧ momRun ⟨5, 2000, 2, 1.5, []⟩ false true true 0 ⟨0, 0, false⟩
        ⟨Status.WAITING, Latch.NONE, 0, none, 0, 0, 0, none⟩ 100 7 =
      some (⟨0, 0, false⟩,
        ⟨Status.WAITING, Latch.NONE, 0, some ⟨0, 100, 100, 100, 100, 0⟩, 7,
          0, 0, none⟩, none))
    ∧ (((⟨0, 0, false⟩, ⟨Status.WAITING, Latch.NONE, 0,
          some ⟨0, 100, 100, 100, 100, 0⟩, 7, 0, 0, none⟩, none) :
          Store × Stock × Option Candle).2.1.last_vol =
        (if (⟨Status.WAITING, Latch.NONE, 0, none, 0, 0, 0, none⟩ :
              Stock).status = Status.OPEN ∨
            (⟨Status.WAITING, Latch.NONE, 0, none, 0, 0, 0, none⟩ :
              Stock).status = Status.TRIGGER_WATCH
          then (⟨Status.WAITING, Latch.NONE, 0, none, 0, 0, 0, none⟩ :
              Stock).last_vol else 7)
      ∧ ((⟨0, 0, false⟩, ⟨Status.WAITING, Latch.NONE, 0,
          some ⟨0, 100, 100, 100, 100, 0⟩, 7, 0, 0, none⟩, none) :
          Store × Stock × Option Candle).2.1.last_vol =
        (if (⟨Status.WAITING, Latch.NONE, 0, none, 0, 0, 0, none⟩ :
              Stock).status = Status.MOM_OPEN ∨
            (⟨Status.WAITING, Latch.NONE, 0, none, 0, 0, 0, none⟩ :
              Stock).status = Status.MOM_TRIGGER_WATCH
          then (⟨Status.WAITING, Latch.NONE, 0, none, 0, 0, 0, none⟩ :
              Stock).last_vol else 7)) :=
  ⟨⟨rfl, rfl⟩,
    C9_last_vol_amended ⟨5, 2000, 2, 1.5, []⟩ false true true 0 ⟨0, 0, false⟩
      ⟨Status.WAITING, Latch.NONE, 0, none, 0, 0, 0, none⟩ 100 7
      (⟨0, 0, false⟩,
        ⟨Status.WAITING, Latch.NONE, 0, some ⟨0, 100, 100, 100, 100, 0⟩, 7,
          0, 0, none⟩, none)
      (⟨0, 0, false⟩,
        ⟨Status.WAITING, Latch.NONE, 0, some ⟨0, 100, 100, 100, 100, 0⟩, 7,
          0, 0, none⟩, none) rfl rfl⟩

/-- C8: over any tick sequence processed by a position monitor while the
trade stays open, the adopted stop is monotone — non-decreasing for the
breakout BUY monitor and the momentum bull monitor, non-increasing for
the momentum bear (SELL) monitor. -/
theorem C8_tsl_monotone (cfg : Cfg)
    (ticks ticksB ticksM : List (ℚ × Bool))
    (stock stockB stockM : Stock) (t t' tb tb' tm tm' : Trade)
    (h1 : stock.active_trade = some t)
    (h2 : (foldBreakoutMonitor cfg ticks stock).active_trade = some t')
    (h3 : stockB.active_trade = some tb)
    (h4 : (foldMomMonitor cfg true ticksB stockB).active_trade = some tb')
    (h5 : stockM.active_trade = some tm)
    (h6 : (foldMomMonitor cfg false ticksM stockM).active_trade = some tm') :
    t.sl_price ≤ t'.sl_price ∧ tb.sl_price ≤ tb'.sl_price
    ∧ tm'.sl_price ≤ tm.sl_price :=
  ⟨foldBreakoutMonitor_sl cfg ticks stock t t' h1 h2,
    foldMomMonitor_sl_bull cfg ticksB stockB tb tb' h3 h4,
    foldMomMonitor_sl_bear cfg ticksM stockM tm tm' h5 h6⟩

/-- Witness for C8: concrete rising BUY paths ratchet the stop from 98 up
to 102.4 (breakout) and 102.2 (momentum bull); a falling SELL path
ratchets it down from 102 to 97.8 (momentum bear). -/
theorem C8_witness :
    ((⟨Status.OPEN, Latch.BULL, 0, none, 0, 0, 0,
        some ⟨1, 100, 98, 110, 0⟩⟩ : Stock).active_trade =
          some ⟨1, 100, 98, 110, 0⟩
      ∧ (foldBreakoutMonitor ⟨5, 2000, 2, 1.5, []⟩
          [(103, false), (104, false)]
          ⟨Status.OPEN, Latch.BULL, 0, none, 0, 0, 0,
            some ⟨1, 100, 98, 110, 0⟩⟩).active_trade =
          some ⟨1, 100, 102.4, 110, 4⟩
      ∧ (⟨Status.MOM_OPEN, Latch.MOM_BULL, 0, none, 0, 0, 0,
          some ⟨1, 100, 98, 110, 0⟩⟩ : Stock).active_trade =
          some ⟨1, 100, 98, 110, 0⟩
      ∧ (foldMomMonitor ⟨5, 2000, 2, 1.5, []⟩ true [(104, false)]
          ⟨Status.MOM_OPEN, Latch.MOM_BULL, 0, none, 0, 0, 0,
            some ⟨1, 100, 98, 110, 0⟩⟩).active_trade =
          some ⟨1, 100, 102.2, 110, 4⟩
      ∧ (⟨Status.MOM_OPEN, Latch.MOM_BEAR, 0, none, 0, 0, 0,
          some ⟨1, 100, 102, 95, 0⟩⟩ : Stock).active_trade =
          some ⟨1, 100, 102, 95, 0⟩
      ∧ (foldMomMonitor ⟨5, 2000, 2, 1.5, []⟩ false [(96, false)]
          ⟨Status.MOM_OPEN, Latch.MOM_BEAR, 0, none, 0, 0, 0,
            some ⟨1, 100, 102, 95, 0⟩⟩).active_trade =
          some ⟨1, 100, 97.8, 95, 4⟩)
    ∧ ((⟨1, 100, 98, 110, 0⟩ : Trade).sl_price ≤
        (⟨1, 100, 102.4, 110, 4⟩ : Trade).sl_price
      ∧ (⟨1, 100, 98, 110, 0⟩ : Trade).sl_price ≤
        (⟨1, 100, 102.2, 110, 4⟩ : Trade).sl_price
      ∧ (⟨1, 100, 97.8, 95, 4⟩ : Trade).sl_price ≤
        (⟨1, 100, 102, 95, 0⟩ : Trade).sl_price) := by
  have hA : round2 3 = 3 := round2_fix 3 300 (by norm_num)
  have hB : round2 4 = 4 := round2_fix 4 400 (by norm_num)
  have hC : round2 (512/5) = 512/5 := round2_fix _ 10240 (by norm_num)
  have hD : round2 (489/5) = 489/5 := round2_fix _ 9780 (by norm_num)
  have hE : round2 (511/5) = 511/5 := round2_fix _ 10220 (by norm_num)
  have habs2 : |(-2 : ℚ)| = 2 := by
    rw [abs_of_nonpos (by norm_num)]; norm_num
  have habs2p : |(2 : ℚ)| = 2 := by
    rw [abs_of_nonneg (by norm_num)]
  have hf1 : (foldBreakoutMonitor ⟨5, 2000, 2, 1.5, []⟩
      [(103, false), (104, false)]
      ⟨Status.OPEN, Latch.BULL, 0, none, 0, 0, 0,
        some ⟨1, 100, 98, 110, 0⟩⟩).active_trade =
      some ⟨1, 100, 102.4, 110, 4⟩ := by
    norm_num [foldBreakoutMonitor, List.foldl_cons, List.foldl_nil,
      breakoutMonitor, calculate_tsl, closePosition, hA, hB, hC]
  have hf2 : (foldMomMonitor ⟨5, 2000, 2, 1.5, []⟩ true [(104, false)]
      ⟨Status.MOM_OPEN, Latch.MOM_BULL, 0, none, 0, 0, 0,
        some ⟨1, 100, 98, 110, 0⟩⟩).active_trade =
      some ⟨1, 100, 102.2, 110, 4⟩ := by
    norm_num [foldMomMonitor, List.foldl_cons, List.foldl_nil,
      momMonitor, mom_calculate_tsl, closePosition, hB, hE, habs2p]
  have hf3 : (foldMomMonitor ⟨5, 2000, 2, 1.5, []⟩ false [(96, false)]
      ⟨Status.MOM_OPEN, Latch.MOM_BEAR, 0, none, 0, 0, 0,
        some ⟨1, 100, 102, 95, 0⟩⟩).active_trade =
      some ⟨1, 100, 97.8, 95, 4⟩ := by
    norm_num [foldMomMonitor, List.foldl_cons, List.foldl_nil,
      momMonitor, mom_calculate_tsl, closePosition, hB, hD, habs2]
  exact ⟨⟨rfl, hf1, rfl, hf2, rfl, hf3⟩,
    C8_tsl_monotone ⟨5, 2000, 2, 1.5, []⟩
      [(103, false), (104, false)] [(104, false)] [(96, false)]
      ⟨Status.OPEN, Latch.BULL, 0, none, 0, 0, 0,
        some ⟨1, 100, 98, 110, 0⟩⟩
      ⟨Status.MOM_OPEN, Latch.MOM_BULL, 0, none, 0, 0, 0,
        some ⟨1, 100, 98, 110, 0⟩⟩
      ⟨Status.MOM_OPEN, Latch.MOM_BEAR, 0, none, 0, 0, 0,
        some ⟨1, 100, 102, 95, 0⟩⟩
      ⟨1, 100, 98, 110, 0⟩ ⟨1, 100, 102.4, 110, 4⟩
      ⟨1, 100, 98, 110, 0⟩ ⟨1, 100, 102.2, 110, 4⟩
      ⟨1, 100, 102, 95, 0⟩ ⟨1, 100, 97.8, 95, 4⟩
      rfl hf1 rfl hf2 rfl hf3⟩

/-! ## Helper lemmas: opened trades have positive quantity -/

lemma breakoutOpenTrade_qty (cfg : Cfg) (store : Store) (stock : Stock)
    (ltp : ℚ) (r : Store × Stock × Option Trade) (t : Trade)
    (h : breakoutOpenTrade cfg store stock ltp = some r)
    (ht : r.2.2 = some t) : 1 ≤ t.qty := by
  cases hc : stock.candle with
  | none =>
    simp only [breakoutOpenTrade, hc] at h
    split_ifs at h <;>
      first
        | exact Option.noConfusion h
        | (simp only [Option.some.injEq] at h; subst h; simp at ht)
  | some c =>
    simp only [breakoutOpenTrade, hc] at h
    split_ifs at h <;>
      (simp only [Option.some.injEq] at h; subst h;
       first
         | (simp only [Option.some.injEq] at ht; subst ht; dsimp only; omega)
         | simp at ht)

lemma momOpenTrade_qty (cfg : Cfg) (hasKite orderOk isBull : Bool)
    (store : Store) (stock : Stock) (ltp : ℚ)
    (r : Store × Stock × Option Trade) (t : Trade)
    (h : momOpenTrade cfg hasKite orderOk isBull store stock ltp = some r)
    (ht : r.2.2 = some t) : 1 ≤ t.qty := by
  cases hc : stock.candle with
  | none =>
    simp only [momOpenTrade, hc] at h
    split_ifs at h <;>
      first
        | exact Option.noConfusion h
        | (simp only [Option.some.injEq] at h; subst h; simp at ht)
  | some c =>
    simp only [momOpenTrade, hc] at h
    split_ifs at h <;>
      (simp only [Option.some.injEq] at h; subst h;
       first
         | (simp only [Option.some.injEq] at ht; subst ht; dsimp only; omega)
         | simp at ht)

/-- C10: with a positive last traded price the per-share risk used for
sizing is strictly positive in both engines (the breakout engine
substitutes `ltp * 0.002` for a zero candle-low risk, the momentum
engine floors at `ltp * 0.005`), and whenever a trade record is created
by either `open_trade` its integer quantity is at least one. -/
theorem C10_position_sizing (ltp sl : ℚ) (cfg : Cfg) (store : Store)
    (stockB stockM : Stock) (hasKite orderOk isBull : Bool)
    (r rm : Store × Stock × Option Trade) (t tm : Trade)
    (hltp : 0 < ltp) :
    0 < breakoutRiskPerShare ltp sl
    ∧ 0 < momRiskPerShare ltp sl
    ∧ (breakoutOpenTrade cfg store stockB ltp = some r → r.2.2 = some t →
        1 ≤ t.qty)
    ∧ (momOpenTrade cfg hasKite orderOk isBull store stockM ltp = some rm →
        rm.2.2 = some tm → 1 ≤ tm.qty) := by
  refine ⟨?_, ?_, breakoutOpenTrade_qty cfg store stockB ltp r t,
    momOpenTrade_qty cfg hasKite orderOk isBull store stockM ltp rm tm⟩
  · simp only [breakoutRiskPerShare]
    split_ifs with h
    · exact mul_pos hltp (by norm_num)
    · exact lt_of_not_le h
  · exact lt_of_lt_of_le (mul_pos hltp (by norm_num)) (le_max_right _ _)

/-- Witness for C10 at a concrete opened trade in each engine: price 100,
candle-low stop 99, risk amount 2000 gives quantity 2000 ≥ 1. -/
theorem C10_witness :
    (0 : ℚ) < 100
    ∧ (0 < breakoutRiskPerShare 100 99
      ∧ 0 < momRiskPerShare 100 99
      ∧ (breakoutOpenTrade ⟨5, 2000, 2, 1.5, []⟩ ⟨0, 0, false⟩
          ⟨Status.TRIGGER_WATCH, Latch.BULL, 101,
            some ⟨0, 100, 101, 99, 100.5, 1000⟩, 0, 0, 0, none⟩ 100 =
          some (⟨1, 0, false⟩,
            ⟨Status.OPEN, Latch.BULL, 101,
              some ⟨0, 100, 101, 99, 100.5, 1000⟩, 0, 0, 0,
              some ⟨2000, 100, 99, 102, 0⟩⟩,
            some ⟨2000, 100, 99, 102, 0⟩) →
        ((⟨1, 0, false⟩,
          ⟨Status.OPEN, Latch.BULL, 101,
            some ⟨0, 100, 101, 99, 100.5, 1000⟩, 0, 0, 0,
            some ⟨2000, 100, 99, 102, 0⟩⟩,
          some ⟨2000, 100, 99, 102, 0⟩) :
            Store × Stock × Option Trade).2.2 =
          some ⟨2000, 100, 99, 102, 0⟩ →
        1 ≤ (⟨2000, 100, 99, 102, 0⟩ : Trade).qty)
      ∧ (momOpenTrade ⟨5, 2000, 2, 1.5, []⟩ true true true ⟨0, 0, false⟩
          ⟨Status.MOM_TRIGGER_WATCH, Latch.MOM_BULL, 101,
            some ⟨0, 100, 101, 99, 100.5, 1000⟩, 0, 0, 0, none⟩ 100 =
          some (⟨1, 0, false⟩,
            ⟨Status.MOM_OPEN, Latch.MOM_BULL, 101,
              some ⟨0, 100, 101, 99, 100.5, 1000⟩, 0, 0, 0,
              some ⟨2000, 100, 99, 102, 0⟩⟩,
            some ⟨2000, 100, 99, 102, 0⟩) →
        ((⟨1, 0, false⟩,
          ⟨Status.MOM_OPEN, Latch.MOM_BULL, 101,
            some ⟨0, 100, 101, 99, 100.5, 1000⟩, 0, 0, 0,
            some ⟨2000, 100, 99, 102, 0⟩⟩,
          some ⟨2000, 100, 99, 102, 0⟩) :
            Store × Stock × Option Trade).2.2 =
          some ⟨2000, 100, 99, 102, 0⟩ →
        1 ≤ (⟨2000, 100, 99, 102, 0⟩ : Trade).qty)) :=
  ⟨by norm_num,
    C10_position_sizing 100 99 ⟨5, 2000, 2, 1.5, []⟩ ⟨0, 0, false⟩
      ⟨Status.TRIGGER_WATCH, Latch.BULL, 101,
        some ⟨0, 100, 101, 99, 100.5, 1000⟩, 0, 0, 0, none⟩
      ⟨Status.MOM_TRIGGER_WATCH, Latch.MOM_BULL, 101,
        some ⟨0, 100, 101, 99, 100.5, 1000⟩, 0, 0, 0, none⟩
      true true true
      (⟨1, 0, false⟩,
        ⟨Status.OPEN, Latch.BULL, 101,
          some ⟨0, 100, 101, 99, 100.5, 1000⟩, 0, 0, 0,
          some ⟨2000, 100, 99, 102, 0⟩⟩,
        some ⟨2000, 100, 99, 102, 0⟩)
      (⟨1, 0, false⟩,
        ⟨Status.MOM_OPEN, Latch.MOM_BULL, 101,
          some ⟨0, 100, 101, 99, 100.5, 1000⟩, 0, 0, 0,
          some ⟨2000, 100, 99, 102, 0⟩⟩,
        some ⟨2000, 100, 99, 102, 0⟩)
      ⟨2000, 100, 99, 102, 0⟩ ⟨2000, 100, 99, 102, 0⟩ (by norm_num)⟩

end Nexus
